import Mathlib

/-!
Verification of the Raspberry Pi TrustMonitor HAL core against its
specification.  The definitions below are a shallow embedding of the Python
sources under `src/hardware/`:

* `hal_core.py` — `DeviceStatus`, `HALManager.initialize_all` / `unregister_device`
* `hal_sensors.py` — `DHT11Sensor.read_values` / `_read_with_retry`
* `hal_indicators.py` — `RGBLEDIndicator.set_color` / `clear` / `self_test`
* `hal_sensor_monitor.py` — `HALSensorMonitor.determine_status` /
  `update_led_status` / `read_sensors` / `run_once`

Python floats (times, temperatures, humidities) are modelled by `ℚ`; IEEE
comparison on non-NaN values agrees with the rational order.  Mutation of
`self` is modelled by explicit state passing; a method that can raise and is
caught at its own boundary is modelled by a total function returning the
caught outcome.  External effects (the DHT bus, `time.sleep`, GPIO PWM
writes) are modelled by oracles and by event traces.
-/

/-- `DeviceStatus` from `hal_core.py` (UNINITIALIZED / INITIALIZED / READY /
ERROR / DISABLED); the first two constructors are abbreviated `uninit` /
`inited`. -/
inductive DeviceStatus where
  | uninit
  | inited
  | ready
  | error
  | disabled
  deriving DecidableEq

/-- Observable effects of one `DHT11Sensor` read: a raw bus read
(`_read_raw_values`) or a `time.sleep(retry_delay)` between attempts. -/
inductive SensorEvent where
  | rawRead
  | sleep (d : ℚ)
  deriving DecidableEq

/-- The mutable fields of `DHT11Sensor` that the read path uses. -/
structure SensorState where
  status : DeviceStatus
  max_retries : ℕ
  retry_delay : ℚ
  last_reading_time : ℚ
  min_read_interval : ℚ
  deriving DecidableEq

/-- The retry loop of `DHT11Sensor._read_with_retry`, `hal_sensors.py`
lines 176–194.  `raw n` is the outcome of the raw bus read on (0-based)
attempt `n`: `_read_raw_values` catches every exception and returns
`(None, None)`, so the oracle is total and returns a pair of options.
The loop returns the first attempt yielding both values and sleeps
`retry_delay` between attempts (`attempt < max_retries - 1`), never after
the last one. -/
def readWithRetryAux (raw : ℕ → Option ℚ × Option ℚ) (delay : ℚ) :
    ℕ → ℕ → Option (ℚ × ℚ) × List SensorEvent
  | _, 0 => (none, [])
  | attempt, remaining + 1 =>
    match raw attempt with
    | (some t, some h) => (some (t, h), [SensorEvent.rawRead])
    | _ =>
      if remaining = 0 then (none, [SensorEvent.rawRead])
      else
        let r := readWithRetryAux raw delay (attempt + 1) remaining
        (r.1, SensorEvent.rawRead :: SensorEvent.sleep delay :: r.2)

/-- `DHT11Sensor._read_with_retry` on a given sensor state. -/
def read_with_retry (s : SensorState) (raw : ℕ → Option ℚ × Option ℚ) :
    Option (ℚ × ℚ) × List SensorEvent :=
  readWithRetryAux raw s.retry_delay 0 s.max_retries

/-- `DHT11Sensor.read_values`, `hal_sensors.py` lines 132–157.  Returns the
reading (`none` models the empty dict `{}`), the updated sensor state and
the trace of raw reads / sleeps.  A non-ready device raises
`DeviceOperationError`, which the method's own `except` turns into `{}`;
`current_time` is captured once before the retry loop and becomes
`last_reading_time` on success; on exhaustion the state is unchanged. -/
def read_values (s : SensorState) (now : ℚ) (raw : ℕ → Option ℚ × Option ℚ) :
    Option (ℚ × ℚ) × SensorState × List SensorEvent :=
  if s.status ≠ DeviceStatus.ready then (none, s, [])
  else if now - s.last_reading_time < s.min_read_interval then (none, s, [])
  else
    match read_with_retry s raw with
    | (some v, tr) => (some v, { s with last_reading_time := now }, tr)
    | (none, tr) => (none, s, tr)

/-- Total time spent sleeping in a sensor trace (models the wall-clock
duration the call occupies beyond the raw reads themselves). -/
def sleep_total : List SensorEvent → ℚ
  | [] => 0
  | SensorEvent.sleep d :: rest => d + sleep_total rest
  | SensorEvent.rawRead :: rest => sleep_total rest

/-- Threshold configuration of `SensorConfig` in `hal_sensor_monitor.py`. -/
structure ThresholdConfig where
  temp_warning : ℚ
  temp_error : ℚ
  humidity_warning : ℚ
  humidity_error : ℚ
  deriving DecidableEq

/-- `HALSensorMonitor.determine_status`, `hal_sensor_monitor.py`
lines 129–140: error thresholds first, then warning thresholds, else
normal.  It reads only the two arguments and the configured thresholds. -/
def determine_status (cfg : ThresholdConfig) (temperature humidity : ℚ) : String :=
  if temperature ≥ cfg.temp_error ∨ humidity ≥ cfg.humidity_error then "red"
  else if temperature ≥ cfg.temp_warning ∨ humidity ≥ cfg.humidity_warning then "blue"
  else "green"

/-- Indicator operations issued by `HALSensorMonitor.update_led_status`:
`hal.clear_all_indicators()`, `time.sleep(0.5)`, and
`hal.set_indicator_state('rgb_led', 'on', color=...)`. -/
inductive LedEvent where
  | clearAll
  | sleep (d : ℚ)
  | setIndicator (color : String)
  deriving DecidableEq

/-- The monitor's state: `current_status` starts as `None` and holds the
last successfully applied LED status string. -/
structure MonitorState where
  current_status : Option String
  deriving DecidableEq

/-- `HALSensorMonitor.update_led_status`, `hal_sensor_monitor.py`
lines 142–160.  `setOk c` is the oracle outcome of
`hal.set_indicator_state('rgb_led', 'on', color=c)` (the result of
`clear_all_indicators` is ignored by the source).  `current_status` is
updated only when the indicator set reports success. -/
def update_led_status (setOk : String → Bool) (st : MonitorState) (status : String) :
    MonitorState × List LedEvent :=
  if st.current_status = some status then (st, [])
  else
    let tr := [LedEvent.clearAll, LedEvent.sleep (1/2), LedEvent.setIndicator status]
    if setOk status then ({ current_status := some status }, tr) else (st, tr)

/-- `HALSensorMonitor.read_sensors`, lines 162–185: forwards the HAL read
(`get_sensor_values('dht11_sensor')` → `DHT11Sensor.read_values`); an empty
dict, missing key, `None` component or exception all become `None`, which
our `Option (ℚ × ℚ)` result already encodes. -/
def read_sensors (s : SensorState) (now : ℚ) (raw : ℕ → Option ℚ × Option ℚ) :
    Option (ℚ × ℚ) × SensorState × List SensorEvent :=
  read_values s now raw

/-- `HALSensorMonitor.run_once`, lines 187–212: one monitoring cycle.
Returns the new sensor state, the new monitor state, and the sensor / LED
event traces. -/
def run_once (cfg : ThresholdConfig) (setOk : String → Bool)
    (sensor : SensorState) (mon : MonitorState) (now : ℚ)
    (raw : ℕ → Option ℚ × Option ℚ) :
    SensorState × MonitorState × List SensorEvent × List LedEvent :=
  match read_sensors sensor now raw with
  | (some th, s2, tr) =>
    let u := update_led_status setOk mon (determine_status cfg th.1 th.2)
    (s2, u.1, tr, u.2)
  | (none, s2, tr) =>
    let u := update_led_status setOk mon "red"
    (s2, u.1, tr, u.2)

/-- A Python exception value, identified by its message. -/
structure Exn where
  msg : String
  deriving DecidableEq

/-- Outcome of one call to a device's `initialize(config)`: either a normal
return — the boolean result together with the `status` / `last_error`
fields the device left behind (e.g. `DHT11Sensor` sets `READY` and returns
`True` on success) — or a raised exception. -/
inductive InitResult where
  | ok (success : Bool) (statusAfter : DeviceStatus) (errAfter : Option Exn)
  | raises (e : Exn)

/-- Outcome of one call to a device's `cleanup()`. -/
inductive CleanupBehavior where
  | ret (b : Bool)
  | raises (e : Exn)

/-- A per-device configuration slice (`Dict[str, Any]`); the manager only
passes slices through, so the value type is immaterial. -/
def Config : Type := List (String × ℚ)

/-- A registered `IHALDevice` as seen by `HALManager`: identity, the
status / error fields of `IHALDevice`, and the device's behaviour on
`initialize` and `cleanup` (oracles standing for the concrete subclass
code, which is outside the manager). -/
structure MDevice where
  id : String
  status : DeviceStatus
  last_error : Option Exn
  initB : Config → InitResult
  cleanupB : CleanupBehavior

/-- `global_config.get(device_id, {}) if global_config else {}` in
`HALManager.initialize_all`. -/
def lookupConfig (g : List (String × Config)) (did : String) : Config :=
  match g.find? (fun p => p.1 == did) with
  | some p => p.2
  | none => []

/-- One iteration of the loop in `HALManager.initialize_all`,
`hal_core.py` lines 193–204: run the device's `initialize` with its config
slice; a raised exception is caught and recorded via `set_error` (status
becomes `ERROR`, `last_error` is set) and counts as failure. -/
def initDevice (g : List (String × Config)) (d : MDevice) : MDevice × Bool :=
  match d.initB (lookupConfig g d.id) with
  | InitResult.ok success stAfter errAfter =>
    ({ d with status := stAfter, last_error := errAfter }, success)
  | InitResult.raises e =>
    ({ d with status := DeviceStatus.error, last_error := some e }, false)

/-- The device loop of `HALManager.initialize_all`: processes every device
in order and counts the successes. -/
def init_all_aux (g : List (String × Config)) : List MDevice → List MDevice × ℕ
  | [] => ([], 0)
  | d :: rest =>
    ((initDevice g d).1 :: (init_all_aux g rest).1,
      (if (initDevice g d).2 then 1 else 0) + (init_all_aux g rest).2)

/-- `HALManager.initialize_all`, `hal_core.py` lines 185–213: returns the
devices after initialization and `success_count == total_count`. -/
def init_all (g : List (String × Config)) (devices : List MDevice) :
    List MDevice × Bool :=
  ((init_all_aux g devices).1, (init_all_aux g devices).2 == devices.length)

/-- `HALManager.unregister_device`, `hal_core.py` lines 164–179.  The
registry dict is modelled as a list with unique ids.  `device.cleanup()` is
called before `del self.devices[device_id]`; its boolean result is ignored,
but an exception it raises is caught by the method's `except`, which
returns `False` before the `del` executes. -/
def unregister_device (devices : List MDevice) (did : String) :
    List MDevice × Bool :=
  match devices.find? (fun d => d.id == did) with
  | none => (devices, false)
  | some d =>
    match d.cleanupB with
    | CleanupBehavior.raises _ => (devices, false)
    | CleanupBehavior.ret _ => (devices.eraseP (fun d2 => d2.id == did), true)

/-- `LEDColor` from `hal_indicators.py`. -/
inductive LEDColor where
  | red
  | green
  | blue
  | yellow
  | cyan
  | magenta
  | white
  | off
  deriving DecidableEq

/-- `LEDState` from `hal_indicators.py`. -/
inductive LEDState where
  | off
  | on
  | blinking
  | breathing
  | error
  deriving DecidableEq

/-- The three PWM channels of the RGB LED. -/
inductive Channel where
  | red
  | green
  | blue
  deriving DecidableEq

/-- Current duty cycle (0–100) of each PWM channel. -/
structure LedChannels where
  red : ℕ
  green : ℕ
  blue : ℕ
  deriving DecidableEq

/-- The mutable fields of `RGBLEDIndicator` that the color path uses.
`clock` numbers the `ChangeDutyCycle` hardware calls issued so far, so that
an oracle can decide which call raises. -/
structure RGBLed where
  status : DeviceStatus
  channels : LedChannels
  current_color : LEDColor
  current_state : LEDState
  brightness : ℕ
  clock : ℕ
  deriving DecidableEq

/-- Write one channel's duty cycle. -/
def setChannel (c : LedChannels) (ch : Channel) (v : ℕ) : LedChannels :=
  match ch with
  | Channel.red => { c with red := v }
  | Channel.green => { c with green := v }
  | Channel.blue => { c with blue := v }

/-- One `pwm.ChangeDutyCycle(v)` call: `hw n` says whether hardware call
number `n` succeeds; on a raise the duty cycle is left unchanged. -/
def changeDuty (hw : ℕ → Bool) (st : RGBLed) (ch : Channel) (v : ℕ) :
    Bool × RGBLed :=
  if hw st.clock then
    (true, { st with channels := setChannel st.channels ch v, clock := st.clock + 1 })
  else
    (false, { st with clock := st.clock + 1 })

/-- A sequence of `ChangeDutyCycle` calls, aborted by the first raise (the
exception propagates out of the `for` loop to the caller's `except`). -/
def applySeq (hw : ℕ → Bool) (st : RGBLed) : List (Channel × ℕ) → Bool × RGBLed
  | [] => (true, st)
  | p :: rest =>
    let r := changeDuty hw st p.1 p.2
    if r.1 then applySeq hw r.2 rest else (false, r.2)

/-- The `pwm_objects` iteration order (dict insertion order red, green,
blue) used when zeroing all channels. -/
def clearCalls : List (Channel × ℕ) :=
  [(Channel.red, 0), (Channel.green, 0), (Channel.blue, 0)]

/-- The `duty_cycles` table of `RGBLEDIndicator.set_color`,
`hal_indicators.py` lines 252–267. -/
def duty_cycles (color : LEDColor) (b : ℕ) : LedChannels :=
  match color with
  | LEDColor.off => ⟨0, 0, 0⟩
  | LEDColor.red => ⟨b, 0, 0⟩
  | LEDColor.green => ⟨0, b, 0⟩
  | LEDColor.blue => ⟨0, 0, b⟩
  | LEDColor.yellow => ⟨b, b, 0⟩
  | LEDColor.cyan => ⟨0, b, b⟩
  | LEDColor.magenta => ⟨b, 0, b⟩
  | LEDColor.white => ⟨b, b, b⟩

/-- `RGBLEDIndicator.set_color`, `hal_indicators.py` lines 231–286 (the
GPIO branch): zero all channels first, then apply the color's duty cycles
in dict order; any raise is caught at the method boundary and returned as
`False`, leaving the partially updated channels behind.  `brightness = none`
models the default `brightness=None` → `self.brightness`. -/
def set_color (hw : ℕ → Bool) (st : RGBLed) (color : LEDColor)
    (brightness : Option ℕ) : Bool × RGBLed :=
  if st.status ≠ DeviceStatus.ready then (false, st)
  else
    let b := brightness.getD st.brightness
    let r1 := applySeq hw st clearCalls
    if r1.1 = false then (false, r1.2)
    else
      let dc := duty_cycles color b
      let r2 := applySeq hw r1.2
        [(Channel.red, dc.red), (Channel.green, dc.green), (Channel.blue, dc.blue)]
      if r2.1 = false then (false, r2.2)
      else
        (true, { r2.2 with
          current_color := color,
          current_state := if color = LEDColor.off then LEDState.off else LEDState.on })

/-- `RGBLEDIndicator.clear`, `hal_indicators.py` lines 206–229 (the GPIO
branch): zero all channels; a raise is caught and returned as `False`. -/
def clearLed (hw : ℕ → Bool) (st : RGBLed) : Bool × RGBLed :=
  if st.status ≠ DeviceStatus.ready then (false, st)
  else
    let r := applySeq hw st clearCalls
    if r.1 = false then (false, r.2)
    else (true, { r.2 with current_color := LEDColor.off, current_state := LEDState.off })

/-- `RGBLEDIndicator.self_test`, `hal_indicators.py` lines 149–167: set
red, green, blue in turn (the `time.sleep(0.5)` holds between them do not
touch the channels and are omitted), returning `False` as soon as one
`set_color` fails — with no further indicator operation — and otherwise
finishing with `clear()`. -/
def self_test (hw : ℕ → Bool) (st : RGBLed) : Bool × RGBLed :=
  if st.status ≠ DeviceStatus.ready then (false, st)
  else
    let r1 := set_color hw st LEDColor.red none
    if r1.1 = false then (false, r1.2)
    else
      let r2 := set_color hw r1.2 LEDColor.green none
      if r2.1 = false then (false, r2.2)
      else
        let r3 := set_color hw r2.2 LEDColor.blue none
        if r3.1 = false then (false, r3.2)
        else clearLed hw r3.2

/-! Concrete instances used to instantiate the theorems.  Numeric values
follow the documented defaults (`max_retries 3`, `retry_delay 2.0`,
`min_read_interval 2.0`, thresholds 40/45 °C and 70/80 %). -/

/-- The default thresholds of `SensorConfig.load_config`. -/
def defaultThresholds : ThresholdConfig :=
  { temp_warning := 40, temp_error := 45, humidity_warning := 70, humidity_error := 80 }

/-- A bus that always reports missing values (transient bus faults). -/
def rawMissing : ℕ → Option ℚ × Option ℚ := fun _ => (none, none)

/-- A bus that always returns the given reading. -/
def rawFixed (t h : ℚ) : ℕ → Option ℚ × Option ℚ := fun _ => (some t, some h)

/-- A bus that fails the first two attempts and then returns (30 °C, 50 %). -/
def rawLate : ℕ → Option ℚ × Option ℚ :=
  fun n => if n < 2 then (none, none) else (some 30, some 50)

/-- A ready DHT11 with the default configuration and no prior reading. -/
def sReady : SensorState :=
  { status := DeviceStatus.ready, max_retries := 3, retry_delay := 2,
    last_reading_time := 0, min_read_interval := 2 }

/-- A ready DHT11 with a short configured `retry_delay` (0.1 s), so that a
full retry exhaustion fits inside the rate-limit window. -/
def sQuick : SensorState :=
  { status := DeviceStatus.ready, max_retries := 3, retry_delay := 1/10,
    last_reading_time := 0, min_read_interval := 2 }

/-- The monitor's initial state (`current_status = None`). -/
def monStart : MonitorState := { current_status := none }

/-- An indicator whose `set_indicator_state` always succeeds. -/
def setOkAll : String → Bool := fun _ => true

/-- An indicator whose `set_indicator_state` always fails. -/
def setOkNone : String → Bool := fun _ => false

/-- A device whose `initialize` returns `True` and leaves it `READY`. -/
def devOk (did : String) : MDevice :=
  { id := did, status := DeviceStatus.uninit, last_error := none,
    initB := fun _ => InitResult.ok true DeviceStatus.ready none,
    cleanupB := CleanupBehavior.ret true }

/-- A device whose `initialize` raises. -/
def devRaisesInit (did : String) : MDevice :=
  { id := did, status := DeviceStatus.uninit, last_error := none,
    initB := fun _ => InitResult.raises { msg := "init boom" },
    cleanupB := CleanupBehavior.ret true }

/-- The three-device registry of the spec's partial-failure scenario:
device 2's `initialize` raises. -/
def devs3 : List MDevice := [devOk "dev1", devRaisesInit "dev2", devOk "dev3"]

/-- A registered device whose `cleanup` raises. -/
def devCleanupRaises : MDevice :=
  { id := "dht11_sensor", status := DeviceStatus.ready, last_error := none,
    initB := fun _ => InitResult.ok true DeviceStatus.ready none,
    cleanupB := CleanupBehavior.raises { msg := "cleanup boom" } }

/-- A registered device whose `cleanup` returns `False` without raising. -/
def devCleanupFalse : MDevice :=
  { id := "dht11_sensor", status := DeviceStatus.ready, last_error := none,
    initB := fun _ => InitResult.ok true DeviceStatus.ready none,
    cleanupB := CleanupBehavior.ret false }

/-- PWM hardware on which the seventh `ChangeDutyCycle` call (index 6 — the
first call of the second color-set's clearing phase, on the red channel)
raises and every other call succeeds. -/
def hwFailAt6 : ℕ → Bool := fun n => !(n == 6)

/-- PWM hardware that never fails. -/
def hwOk : ℕ → Bool := fun _ => true

/-- An initialized RGB LED: ready, all channels at 0, default brightness. -/
def ledReady : RGBLed :=
  { status := DeviceStatus.ready, channels := ⟨0, 0, 0⟩,
    current_color := LEDColor.off, current_state := LEDState.off,
    brightness := 100, clock := 0 }

/-! Helper lemmas about the retry loop. -/

/-- If the bus never yields a complete reading, the retry loop makes every
attempt, sleeping once between consecutive attempts, and returns nothing. -/
theorem readAux_all_missing (raw : ℕ → Option ℚ × Option ℚ) (delay : ℚ)
    (hmiss : ∀ n, (raw n).1 = none ∨ (raw n).2 = none) :
    ∀ remaining attempt : ℕ,
      readWithRetryAux raw delay attempt remaining
        = (none, List.intersperse (SensorEvent.sleep delay)
            (List.replicate remaining SensorEvent.rawRead)) := by
  intro remaining
  induction remaining with
  | zero => intro attempt; rfl
  | succ r ih =>
    intro attempt
    have h := hmiss attempt
    unfold readWithRetryAux
    rcases hr : raw attempt with ⟨t, hu⟩
    rw [hr] at h
    rcases t with _ | tv
    · cases r with
      | zero => simp [List.intersperse_singleton]
      | succ s =>
        rw [ih (attempt + 1)]
        simp [List.replicate_succ, List.intersperse_cons_cons]
    · rcases hu with _ | hv
      · cases r with
        | zero => simp [List.intersperse_singleton]
        | succ s =>
          rw [ih (attempt + 1)]
          simp [List.replicate_succ, List.intersperse_cons_cons]
      · simp at h

/-- If the bus yields its first complete reading on (0-based) attempt `k`,
the retry loop returns that reading after `k + 1` raw reads with `k`
interleaved sleeps. -/
theorem readAux_first_success (raw : ℕ → Option ℚ × Option ℚ) (delay : ℚ)
    (tv hv : ℚ) :
    ∀ k attempt remaining : ℕ, k < remaining →
      (∀ i, i < k → (raw (attempt + i)).1 = none ∨ (raw (attempt + i)).2 = none) →
      raw (attempt + k) = (some tv, some hv) →
      readWithRetryAux raw delay attempt remaining
        = (some (tv, hv), List.intersperse (SensorEvent.sleep delay)
            (List.replicate (k + 1) SensorEvent.rawRead)) := by
  intro k
  induction k with
  | zero =>
    intro attempt remaining hlt _ hsucc
    cases remaining with
    | zero => omega
    | succ r =>
      unfold readWithRetryAux
      rw [show attempt + 0 = attempt from rfl] at hsucc
      rw [hsucc]
      simp [List.intersperse_singleton]
  | succ j ih =>
    intro attempt remaining hlt hmiss hsucc
    cases remaining with
    | zero => omega
    | succ r =>
      have h0 := hmiss 0 (by omega)
      unfold readWithRetryAux
      rcases hr : raw (attempt + 0) with ⟨t, hu⟩
      rw [hr] at h0
      have hrec : readWithRetryAux raw delay (attempt + 1) r
          = (some (tv, hv), List.intersperse (SensorEvent.sleep delay)
              (List.replicate (j + 1) SensorEvent.rawRead)) := by
        apply ih (attempt + 1) r (by omega)
        · intro i hi
          have := hmiss (i + 1) (by omega)
          rwa [show attempt + (i + 1) = attempt + 1 + i by omega] at this
        · rwa [show attempt + (j + 1) = attempt + 1 + j by omega] at hsucc
      have hrne : r ≠ 0 := by omega
      rcases t with _ | tv2
      · rw [show raw attempt = (none, hu) from hr, if_neg hrne, hrec]
        simp [List.replicate_succ, List.intersperse_cons_cons]
      · rcases hu with _ | hv2
        · rw [show raw attempt = (some tv2, none) from hr, if_neg hrne, hrec]
          simp [List.replicate_succ, List.intersperse_cons_cons]
        · simp at h0

/-- The sleeps interleaved between `k + 1` raw reads amount to `k` times
the retry delay. -/
theorem sleep_total_intersperse (delay : ℚ) :
    ∀ k : ℕ, sleep_total (List.intersperse (SensorEvent.sleep delay)
      (List.replicate (k + 1) SensorEvent.rawRead)) = k * delay := by
  intro k
  induction k with
  | zero => simp [List.intersperse_singleton, sleep_total]
  | succ j ih =>
    rw [show (j + 1) + 1 = j + 2 from rfl]
    rw [show List.replicate (j + 2) SensorEvent.rawRead
        = SensorEvent.rawRead :: SensorEvent.rawRead
          :: List.replicate j SensorEvent.rawRead from rfl]
    rw [List.intersperse_cons_cons]
    rw [show (SensorEvent.rawRead : SensorEvent) :: List.replicate j SensorEvent.rawRead
        = List.replicate (j + 1) SensorEvent.rawRead from rfl] at *
    simp only [sleep_total, ih]
    push_cast
    ring

/-- Evaluation lemma: a ready sensor outside its window on an
always-missing bus runs the full retry loop and returns nothing. -/
theorem read_values_exhaust_eval (s : SensorState) (now : ℚ)
    (raw : ℕ → Option ℚ × Option ℚ)
    (hready : s.status = DeviceStatus.ready)
    (hwin : s.min_read_interval ≤ now - s.last_reading_time)
    (hmiss : ∀ n, (raw n).1 = none ∨ (raw n).2 = none) :
    read_values s now raw
      = (none, s, List.intersperse (SensorEvent.sleep s.retry_delay)
          (List.replicate s.max_retries SensorEvent.rawRead)) := by
  unfold read_values
  rw [if_neg (by simp [hready]), if_neg (not_lt.mpr hwin)]
  unfold read_with_retry
  rw [readAux_all_missing raw s.retry_delay hmiss s.max_retries 0]

/-- Evaluation lemma: a ready sensor outside its window whose bus first
yields a complete reading on (0-based) attempt `k` returns that reading,
stamps `last_reading_time` with the pre-loop time `now`, and has slept
`k` times. -/
theorem read_values_success_eval (s : SensorState) (now : ℚ)
    (raw : ℕ → Option ℚ × Option ℚ) (k : ℕ) (tv hv : ℚ)
    (hready : s.status = DeviceStatus.ready)
    (hwin : s.min_read_interval ≤ now - s.last_reading_time)
    (hk : k < s.max_retries)
    (hmiss : ∀ i, i < k → (raw i).1 = none ∨ (raw i).2 = none)
    (hsucc : raw k = (some tv, some hv)) :
    read_values s now raw
      = (some (tv, hv), { s with last_reading_time := now },
          List.intersperse (SensorEvent.sleep s.retry_delay)
            (List.replicate (k + 1) SensorEvent.rawRead)) := by
  unfold read_values
  rw [if_neg (by simp [hready]), if_neg (not_lt.mpr hwin)]
  unfold read_with_retry
  rw [readAux_first_success raw s.retry_delay tv hv k 0 s.max_retries hk
    (by intro i hi; simpa using hmiss i hi) (by simpa using hsucc)]

/-! ## Claim C1 -/

/-- Claim C1: for every temperature `t` and humidity `h`,
`determine_status(t, h)` returns `red` when `t ≥ temp_error` or
`h ≥ humidity_error`; otherwise `blue` when `t ≥ temp_warning` or
`h ≥ humidity_warning`; otherwise `green`.  The function is pure: it is a
Lean function of exactly `(cfg, t, h)`, with no other dependence and no
effect. -/
theorem determine_status_cases (cfg : ThresholdConfig) (t h : ℚ) :
    ((t ≥ cfg.temp_error ∨ h ≥ cfg.humidity_error) →
      determine_status cfg t h = "red") ∧
    (¬(t ≥ cfg.temp_error ∨ h ≥ cfg.humidity_error) →
      (t ≥ cfg.temp_warning ∨ h ≥ cfg.humidity_warning) →
      determine_status cfg t h = "blue") ∧
    (¬(t ≥ cfg.temp_error ∨ h ≥ cfg.humidity_error) →
      ¬(t ≥ cfg.temp_warning ∨ h ≥ cfg.humidity_warning) →
      determine_status cfg t h = "green") := by
  unfold determine_status
  refine ⟨fun he => ?_, fun hne hw => ?_, fun hne hnw => ?_⟩
  · rw [if_pos he]
  · rw [if_neg hne, if_pos hw]
  · rw [if_neg hne, if_neg hnw]

/-- Witness for C1 at the spec's own examples (thresholds 40/45, 70/80):
(46, 50) → red, (41, 50) → blue, (30, 50) → green, (30, 81) → red. -/
theorem determine_status_cases_witness :
    determine_status defaultThresholds 46 50 = "red" ∧
    determine_status defaultThresholds 41 50 = "blue" ∧
    determine_status defaultThresholds 30 50 = "green" ∧
    determine_status defaultThresholds 30 81 = "red" := by
  refine ⟨?_, ?_, ?_, ?_⟩
  · exact (determine_status_cases defaultThresholds 46 50).1 (by norm_num [defaultThresholds])
  · exact (determine_status_cases defaultThresholds 41 50).2.1
      (by norm_num [defaultThresholds]) (by norm_num [defaultThresholds])
  · exact (determine_status_cases defaultThresholds 30 50).2.2
      (by norm_num [defaultThresholds]) (by norm_num [defaultThresholds])
  · exact (determine_status_cases defaultThresholds 30 81).1 (by norm_num [defaultThresholds])

/-! ## Claim C2 -/

/-- Claim C2: on a `Ready` sensor outside its rate-limit window whose raw
read always yields a missing temperature or humidity, `read_values()`
performs exactly `max_retries` raw-read attempts, with one
`retry_delay` sleep between consecutive attempts and none after the last,
returns the empty mapping, and leaves the sensor state unchanged. -/
theorem read_values_retry_exhaustion (s : SensorState) (now : ℚ)
    (raw : ℕ → Option ℚ × Option ℚ)
    (hready : s.status = DeviceStatus.ready)
    (hwin : s.min_read_interval ≤ now - s.last_reading_time)
    (hmiss : ∀ n, (raw n).1 = none ∨ (raw n).2 = none) :
    read_values s now raw
      = (none, s, List.intersperse (SensorEvent.sleep s.retry_delay)
          (List.replicate s.max_retries SensorEvent.rawRead)) := by
  unfold read_values
  rw [if_neg (by simp [hready]), if_neg (not_lt.mpr hwin)]
  have h := readAux_all_missing raw s.retry_delay hmiss s.max_retries 0
  unfold read_with_retry
  rw [h]

/-- Witness for C2: the default sensor, first called at t = 10 s, on a bus
that always reports missing values: three raw reads with two 2-second
sleeps between them, then the empty mapping. -/
theorem read_values_retry_exhaustion_witness :
    sReady.status = DeviceStatus.ready ∧
    sReady.min_read_interval ≤ (10 : ℚ) - sReady.last_reading_time ∧
    read_values sReady 10 rawMissing
      = (none, sReady, List.intersperse (SensorEvent.sleep sReady.retry_delay)
          (List.replicate sReady.max_retries SensorEvent.rawRead)) := by
  refine ⟨rfl, by norm_num [sReady], ?_⟩
  exact read_values_retry_exhaustion sReady 10 rawMissing rfl
    (by norm_num [sReady]) (fun n => Or.inl rfl)

/-! ## Claim C3 -/

/-- Counterexample to C3 as stated.  `sQuick` is a `Ready` sensor whose
rate window has long passed (`last_reading_time = 0`).  The first
`read_values()` call, at t = 10 s, exhausts its retries and returns the
empty mapping — and, per `hal_sensors.py` line 147, does NOT update
`last_reading_time`.  The second call only 0.5 s later (well under the
2 s `min_read_interval`) is therefore not rate-limited and returns a
reading, contradicting "the second call returns an empty mapping …
regardless of whether the first call … failed". -/
theorem read_values_rate_limit_cex :
    (21/2 : ℚ) - 10 < sQuick.min_read_interval ∧
    (read_values sQuick 10 rawMissing).1 = none ∧
    (read_values sQuick 10 rawMissing).2.1 = sQuick ∧
    (read_values sQuick (21/2) (rawFixed 25 50)).1 = some (25, 50) := by
  have h1 := read_values_exhaust_eval sQuick 10 rawMissing rfl
    (by norm_num [sQuick]) (fun n => Or.inl rfl)
  have h2 := read_values_success_eval sQuick (21/2) (rawFixed 25 50) 0 25 50 rfl
    (by norm_num [sQuick]) (by norm_num [sQuick])
    (fun i hi => absurd hi (Nat.not_lt_zero i)) rfl
  exact ⟨by norm_num [sQuick], by rw [h1], by rw [h1], by rw [h2]⟩

/-- Claim C3 (amended): two `read_values()` calls separated by less than
`min_read_interval` yield first the first call's result, then an empty
mapping — provided the first call succeeded.  (After a failed first call
`last_reading_time` is unchanged, so the window is measured from the last
accepted reading and the second call may retry immediately.)  The second
call performs no raw reads and leaves the state unchanged. -/
theorem read_values_rate_limited_after_success (s : SensorState) (now1 now2 : ℚ)
    (raw1 raw2 : ℕ → Option ℚ × Option ℚ) (v : ℚ × ℚ)
    (h1 : (read_values s now1 raw1).1 = some v)
    (h2 : now2 - now1 < s.min_read_interval) :
    read_values (read_values s now1 raw1).2.1 now2 raw2
      = (none, (read_values s now1 raw1).2.1, []) := by
  have hs : s.status = DeviceStatus.ready := by
    by_contra hne
    unfold read_values at h1
    rw [if_pos (by simpa using hne)] at h1
    simp at h1
  have hwin : ¬(now1 - s.last_reading_time < s.min_read_interval) := by
    intro hlt
    unfold read_values at h1
    rw [if_neg (by simp [hs]), if_pos hlt] at h1
    simp at h1
  have hstate : (read_values s now1 raw1).2.1 = { s with last_reading_time := now1 } := by
    unfold read_values at h1 ⊢
    rw [if_neg (by simp [hs]), if_neg hwin] at h1 ⊢
    rcases hr : read_with_retry s raw1 with ⟨res, tr⟩
    rw [hr] at h1
    rcases res with _ | w
    · simp at h1
    · rfl
  rw [hstate]
  unfold read_values
  rw [if_neg (by simp [hs]), if_pos (by simpa using h2)]

/-- Witness for the amended C3: a successful read at t = 10 s followed by
a call at t = 11 s (1 s < the 2 s window) that returns the empty mapping
without touching the bus. -/
theorem read_values_rate_limited_after_success_witness :
    (read_values sReady 10 (rawFixed 25 50)).1 = some (25, 50) ∧
    (11 : ℚ) - 10 < sReady.min_read_interval ∧
    read_values (read_values sReady 10 (rawFixed 25 50)).2.1 11 (rawFixed 26 51)
      = (none, (read_values sReady 10 (rawFixed 25 50)).2.1, []) := by
  have h1 : (read_values sReady 10 (rawFixed 25 50)).1 = some (25, 50) := by
    rw [read_values_success_eval sReady 10 (rawFixed 25 50) 0 25 50 rfl
      (by norm_num [sReady]) (by norm_num [sReady])
      (fun i hi => absurd hi (Nat.not_lt_zero i)) rfl]
  refine ⟨h1, by norm_num [sReady], ?_⟩
  exact read_values_rate_limited_after_success sReady 10 11 (rawFixed 25 50)
    (rawFixed 26 51) (25, 50) h1 (by norm_num [sReady])

/-! ## Claim C10 -/

/-- Claim C10: when `read_values()` succeeds on (0-based) retry attempt
`k`, the accepted reading is returned but `last_reading_time` is set to
the timestamp `now` captured before the retry loop, while the call itself
has slept `k · retry_delay` seconds — so the next rate-limit window is
measured from a point `k · retry_delay ≤ (max_retries − 1) · retry_delay`
earlier than the moment the reading was accepted.  Consequently (second
conjunct, the default configuration) two accepted readings can complete
less than `min_read_interval` apart: a first call at t = 10 s succeeds on
its third attempt at t = 14 s, and a second call starting at t = 14.5 s is
already outside the window measured from t = 10 s and succeeds at
t = 14.5 s — 0.5 s after the previous accepted reading. -/
theorem read_values_timestamp_before_retries (s : SensorState) (now : ℚ)
    (raw : ℕ → Option ℚ × Option ℚ) (k : ℕ) (tv hv : ℚ)
    (hready : s.status = DeviceStatus.ready)
    (hwin : s.min_read_interval ≤ now - s.last_reading_time)
    (hk : k < s.max_retries)
    (hmiss : ∀ i, i < k → (raw i).1 = none ∨ (raw i).2 = none)
    (hsucc : raw k = (some tv, some hv))
    (hd : 0 ≤ s.retry_delay) :
    ((read_values s now raw).1 = some (tv, hv) ∧
      (read_values s now raw).2.1.last_reading_time = now ∧
      sleep_total (read_values s now raw).2.2 = k * s.retry_delay ∧
      (k : ℚ) * s.retry_delay ≤ ((s.max_retries - 1 : ℕ) : ℚ) * s.retry_delay) ∧
    ((read_values sReady 10 rawLate).1 = some (30, 50) ∧
      (read_values sReady 10 rawLate).2.1 = { sReady with last_reading_time := 10 } ∧
      10 + sleep_total (read_values sReady 10 rawLate).2.2 = 14 ∧
      (read_values { sReady with last_reading_time := 10 } (29/2)
          (rawFixed 31 51)).1 = some (31, 51) ∧
      (29/2 + sleep_total (read_values { sReady with last_reading_time := 10 } (29/2)
          (rawFixed 31 51)).2.2) - (10 + sleep_total (read_values sReady 10 rawLate).2.2)
        < sReady.min_read_interval) := by
  constructor
  · have hrv := read_values_success_eval s now raw k tv hv hready hwin hk hmiss hsucc
    rw [hrv]
    refine ⟨rfl, rfl, sleep_total_intersperse s.retry_delay k, ?_⟩
    have hkle : k ≤ s.max_retries - 1 := by omega
    exact mul_le_mul_of_nonneg_right (by exact_mod_cast hkle) hd
  · have e1 : read_values sReady 10 rawLate
        = (some (30, 50), { sReady with last_reading_time := 10 },
            [SensorEvent.rawRead, SensorEvent.sleep 2, SensorEvent.rawRead,
             SensorEvent.sleep 2, SensorEvent.rawRead]) := by
      rw [read_values_success_eval sReady 10 rawLate 2 30 50 rfl
        (by norm_num [sReady]) (by norm_num [sReady])
        (by intro i hi; interval_cases i <;> exact Or.inl rfl) rfl]
      rfl
    have e2 : read_values { sReady with last_reading_time := 10 } (29/2) (rawFixed 31 51)
        = (some (31, 51), { sReady with last_reading_time := 29/2 },
            [SensorEvent.rawRead]) := by
      rw [read_values_success_eval { sReady with last_reading_time := 10 } (29/2)
        (rawFixed 31 51) 0 31 51 rfl (by norm_num [sReady]) (by norm_num [sReady])
        (fun i hi => absurd hi (Nat.not_lt_zero i)) rfl]
      rfl
    rw [e1, e2]
    norm_num [sleep_total, sReady]

/-- Witness for C10 at the default configuration: success on the third
attempt (k = 2) of a call at t = 10 s records `last_reading_time = 10`
although 4 s of retry sleeps elapsed, and 4 = 2 · 2 ≤ (3 − 1) · 2. -/
theorem read_values_timestamp_before_retries_witness :
    sReady.status = DeviceStatus.ready ∧
    sReady.min_read_interval ≤ (10 : ℚ) - sReady.last_reading_time ∧
    2 < sReady.max_retries ∧
    rawLate 2 = (some 30, some 50) ∧
    (read_values sReady 10 rawLate).1 = some (30, 50) ∧
    (read_values sReady 10 rawLate).2.1.last_reading_time = 10 ∧
    sleep_total (read_values sReady 10 rawLate).2.2 = 2 * sReady.retry_delay := by
  have h := read_values_timestamp_before_retries sReady 10 rawLate 2 30 50 rfl
    (by norm_num [sReady]) (by norm_num [sReady])
    (by intro i hi; interval_cases i <;> exact Or.inl rfl)
    rfl (by norm_num [sReady])
  exact ⟨rfl, by norm_num [sReady], by norm_num [sReady], rfl,
    h.1.1, h.1.2.1, by simpa [sReady] using h.1.2.2.1⟩

/-! ## Claim C4 -/

/-- The device list produced by the loop is the per-device result of
`initDevice`, in registration order. -/
theorem init_all_aux_fst (g : List (String × Config)) :
    ∀ devices : List MDevice,
      (init_all_aux g devices).1 = devices.map (fun d => (initDevice g d).1) := by
  intro devices
  induction devices with
  | nil => rfl
  | cons d rest ih => simp [init_all_aux, ih]

/-- The success count never exceeds the number of devices. -/
theorem init_all_aux_count_le (g : List (String × Config)) :
    ∀ devices : List MDevice, (init_all_aux g devices).2 ≤ devices.length := by
  intro devices
  induction devices with
  | nil => simp [init_all_aux]
  | cons d rest ih =>
    simp only [init_all_aux, List.length_cons]
    have h1 : (if (initDevice g d).2 then 1 else 0) ≤ 1 := by split <;> omega
    omega

/-- The success count equals the device count exactly when every device's
`initialize` succeeded. -/
theorem init_all_aux_count_eq_iff (g : List (String × Config)) :
    ∀ devices : List MDevice,
      ((init_all_aux g devices).2 = devices.length ↔
        ∀ d ∈ devices, (initDevice g d).2 = true) := by
  intro devices
  induction devices with
  | nil => simp [init_all_aux]
  | cons d rest ih =>
    have hle := init_all_aux_count_le g rest
    simp only [init_all_aux, List.length_cons, List.mem_cons]
    cases hd : (initDevice g d).2
    · rw [if_neg (by simp [hd])]
      constructor
      · intro h; omega
      · intro h
        have h2 := h d (Or.inl rfl)
        rw [hd] at h2
        exact absurd h2 (by simp)
    · rw [if_pos (by simp [hd])]
      constructor
      · intro h x hx
        rcases hx with hx | hx
        · rw [hx, hd]
        · exact ih.mp (by omega) x hx
      · intro h
        have h2 := ih.mpr (fun x hx => h x (Or.inr hx))
        omega

/-- Claim C4: `initialize_all` initializes each registered device with its
per-device slice of the config, in order; a device whose `initialize`
raises is recorded via `set_error` (status `ERROR`, `last_error` set) and
does not prevent the remaining devices from being processed (the result
list covers every device); the call returns `true` iff every device's
`initialize` succeeded. -/
theorem init_all_spec (g : List (String × Config)) (devices : List MDevice) :
    (init_all g devices).1 = devices.map (fun d => (initDevice g d).1) ∧
    ((init_all g devices).2 = true ↔ ∀ d ∈ devices, (initDevice g d).2 = true) ∧
    (∀ d ∈ devices, ∀ e : Exn,
      d.initB (lookupConfig g d.id) = InitResult.raises e →
      (initDevice g d).1.status = DeviceStatus.error ∧
      (initDevice g d).1.last_error = some e) := by
  refine ⟨init_all_aux_fst g devices, ?_, ?_⟩
  · constructor
    · intro hb
      have hb2 : ((init_all_aux g devices).2 == devices.length) = true := hb
      exact (init_all_aux_count_eq_iff g devices).mp (by simpa using hb2)
    · intro hall
      have h := (init_all_aux_count_eq_iff g devices).mpr hall
      simp [init_all, h]
  · intro d _ e he
    unfold initDevice
    rw [he]
    exact ⟨rfl, rfl⟩

/-- Witness for C4 at the spec's partial-failure scenario: three devices,
the second of which raises during `initialize` — the call reports overall
failure, yet devices 1 and 3 reach `Ready` and device 2 is in `Error`. -/
theorem init_all_spec_witness :
    (init_all [] devs3).2 = false ∧
    (init_all [] devs3).1.map (fun d => d.status)
      = [DeviceStatus.ready, DeviceStatus.error, DeviceStatus.ready] ∧
    (init_all [] devs3).1.map (fun d => d.last_error)
      = [none, some { msg := "init boom" }, none] := by
  have hspec := init_all_spec [] devs3
  refine ⟨?_, by decide, by decide⟩
  cases hb : (init_all [] devs3).2 with
  | false => rfl
  | true =>
    have hall := hspec.2.1.mp hb
    have hmem : devRaisesInit "dev2" ∈ devs3 :=
      List.mem_cons_of_mem _ (List.mem_cons_self _ _)
    have := hall (devRaisesInit "dev2") hmem
    exact absurd this (by decide)

/-! ## Claim C9 -/

/-- Counterexample to C9.  For a single registered device whose `cleanup`
raises, `unregister_device` is caught by its `except` before the registry
deletion runs: the device is NOT removed and the call returns `false` —
contradicting "the device is nonetheless removed from the registry".
Symmetrically, for a device whose `cleanup` returns `False` without
raising, the failure is NOT reported: the device is removed and the call
returns `true`. -/
theorem unregister_cex :
    (unregister_device [devCleanupRaises] "dht11_sensor").2 = false ∧
    (unregister_device [devCleanupRaises] "dht11_sensor").1.map (fun d => d.id)
      = ["dht11_sensor"] ∧
    (unregister_device [devCleanupFalse] "dht11_sensor").2 = true ∧
    (unregister_device [devCleanupFalse] "dht11_sensor").1 = [] :=
  ⟨rfl, rfl, rfl, rfl⟩

/-- Claim C9 (amended): `unregister` invokes the device's `cleanup` and
then removes it, returning `true`, whenever `cleanup` returns normally —
its boolean result (success or failure) is ignored, not reported; when
`cleanup` raises, the exception is caught, `unregister` returns `false`,
and the device remains registered. -/
theorem unregister_behavior (devices : List MDevice) (did : String) (d : MDevice)
    (hfind : devices.find? (fun x => x.id == did) = some d) :
    (∀ b, d.cleanupB = CleanupBehavior.ret b →
      unregister_device devices did
        = (devices.eraseP (fun x => x.id == did), true)) ∧
    (∀ e, d.cleanupB = CleanupBehavior.raises e →
      unregister_device devices did = (devices, false)) := by
  have hstep : unregister_device devices did
      = (match d.cleanupB with
         | CleanupBehavior.raises _ => (devices, false)
         | CleanupBehavior.ret _ =>
            (devices.eraseP (fun d2 => d2.id == did), true)) := by
    unfold unregister_device
    rw [hfind]
  constructor
  · intro b hb
    rw [hstep, hb]
  · intro e he
    rw [hstep, he]

/-- Witness for the amended C9 in both failure modes, on singleton
registries. -/
theorem unregister_behavior_witness :
    [devCleanupRaises].find? (fun x => x.id == "dht11_sensor") = some devCleanupRaises ∧
    unregister_device [devCleanupRaises] "dht11_sensor" = ([devCleanupRaises], false) ∧
    unregister_device [devCleanupFalse] "dht11_sensor" = ([], true) :=
  ⟨rfl,
    (unregister_behavior [devCleanupRaises] "dht11_sensor" devCleanupRaises rfl).2
      { msg := "cleanup boom" } rfl,
    (unregister_behavior [devCleanupFalse] "dht11_sensor" devCleanupFalse rfl).1
      false rfl⟩

/-! ## Claim C5 -/

/-- Claim C5: from a state whose `current_status` differs from `s`, and
with an indicator set that succeeds, calling `update_led_status(s)` twice
in a row performs the hardware write (clear all, settle delay, set
indicator) exactly once: the first call issues exactly that operation
sequence and records `current_status = s`, and the second call — where `s`
equals `current_status` — is a no-op issuing no indicator operations and
leaving the state untouched. -/
theorem update_led_twice (setOk : String → Bool) (st : MonitorState) (s : String)
    (hok : setOk s = true) (hne : st.current_status ≠ some s) :
    (update_led_status setOk st s).2
      = [LedEvent.clearAll, LedEvent.sleep (1/2), LedEvent.setIndicator s] ∧
    (update_led_status setOk st s).1.current_status = some s ∧
    update_led_status setOk (update_led_status setOk st s).1 s
      = ((update_led_status setOk st s).1, []) := by
  have h1 : update_led_status setOk st s
      = ({ current_status := some s },
         [LedEvent.clearAll, LedEvent.sleep (1/2), LedEvent.setIndicator s]) := by
    unfold update_led_status
    rw [if_neg hne, if_pos hok]
  refine ⟨by rw [h1], by rw [h1], ?_⟩
  rw [h1]
  show update_led_status setOk { current_status := some s } s
      = ({ current_status := some s }, [])
  unfold update_led_status
  rw [if_pos rfl]

/-- Witness for C5: from the initial state (`current_status = None`) with
an always-succeeding indicator, two `update_led_status("green")` calls
write once and the second is a no-op. -/
theorem update_led_twice_witness :
    setOkAll "green" = true ∧
    monStart.current_status ≠ some "green" ∧
    (update_led_status setOkAll monStart "green").2
      = [LedEvent.clearAll, LedEvent.sleep (1/2), LedEvent.setIndicator "green"] ∧
    (update_led_status setOkAll monStart "green").1.current_status = some "green" ∧
    update_led_status setOkAll (update_led_status setOkAll monStart "green").1 "green"
      = ((update_led_status setOkAll monStart "green").1, []) := by
  have h := update_led_twice setOkAll monStart "green" rfl (by simp [monStart])
  exact ⟨rfl, by simp [monStart], h.1, h.2.1, h.2.2⟩

/-! ## Claim C6 -/

/-- Claim C6: for every `new_status` different from `current_status`,
`update_led_status` clears all indicators, waits the fixed 0.5 s settle
delay, then sets the indicator to `new_status`; `current_status` becomes
`new_status` exactly when the indicator set succeeded, and on failure it
is left unchanged — so an immediately following cycle with the same status
performs the full operation sequence again (retries the transition). -/
theorem update_led_changed (setOk : String → Bool) (st : MonitorState) (s : String)
    (hne : st.current_status ≠ some s) :
    (update_led_status setOk st s).2
      = [LedEvent.clearAll, LedEvent.sleep (1/2), LedEvent.setIndicator s] ∧
    (update_led_status setOk st s).1.current_status
      = (if setOk s then some s else st.current_status) ∧
    (setOk s = false → (update_led_status setOk st s).1 = st ∧
      (update_led_status setOk (update_led_status setOk st s).1 s).2
        = [LedEvent.clearAll, LedEvent.sleep (1/2), LedEvent.setIndicator s]) := by
  cases hok : setOk s with
  | false =>
    have h1 : update_led_status setOk st s
        = (st, [LedEvent.clearAll, LedEvent.sleep (1/2), LedEvent.setIndicator s]) := by
      unfold update_led_status
      rw [if_neg hne, if_neg (by simp [hok])]
    refine ⟨by rw [h1], by rw [h1]; simp, fun _ => ⟨by rw [h1], ?_⟩⟩
    rw [h1]
    show (update_led_status setOk st s).2 = _
    rw [h1]
  | true =>
    have h1 : update_led_status setOk st s
        = ({ current_status := some s },
           [LedEvent.clearAll, LedEvent.sleep (1/2), LedEvent.setIndicator s]) := by
      unfold update_led_status
      rw [if_neg hne, if_pos hok]
    exact ⟨by rw [h1], by rw [h1]; simp, fun hfalse => absurd hfalse (by simp)⟩

/-- Witness for C6: from the initial state with an indicator whose set
always fails, `update_led_status("red")` issues the full operation
sequence, leaves `current_status` unchanged, and a second call issues the
sequence again. -/
theorem update_led_changed_witness :
    monStart.current_status ≠ some "red" ∧
    (update_led_status setOkNone monStart "red").2
      = [LedEvent.clearAll, LedEvent.sleep (1/2), LedEvent.setIndicator "red"] ∧
    (update_led_status setOkNone monStart "red").1 = monStart ∧
    (update_led_status setOkNone (update_led_status setOkNone monStart "red").1 "red").2
      = [LedEvent.clearAll, LedEvent.sleep (1/2), LedEvent.setIndicator "red"] := by
  have h := update_led_changed setOkNone monStart "red" (by simp [monStart])
  exact ⟨by simp [monStart], h.1, (h.2.2 rfl).1, (h.2.2 rfl).2⟩

/-! ## Claim C7 -/

/-- Evaluation lemma: a read inside the rate-limit window (or on a
non-ready device) returns the empty mapping without touching the bus. -/
theorem read_values_rate_skip (s : SensorState) (now : ℚ)
    (raw : ℕ → Option ℚ × Option ℚ)
    (hlt : now - s.last_reading_time < s.min_read_interval) :
    read_values s now raw = (none, s, []) := by
  unfold read_values
  by_cases hs : s.status = DeviceStatus.ready
  · rw [if_neg (by simp [hs]), if_pos hlt]
  · rw [if_pos (by simp [hs])]

/-- Claim C7: each `run_once` cycle reads the sensor; when a reading
`(t, h)` is produced, the monitor-state change and the LED operations are
exactly those of `update_led_status(determine_status(t, h))`; when the
sensor yields no data (rate-limited, exhausted retries or any read
failure), they are exactly those of `update_led_status("red")` — the
fail-safe state. -/
theorem run_once_spec (cfg : ThresholdConfig) (setOk : String → Bool)
    (sensor : SensorState) (mon : MonitorState) (now : ℚ)
    (raw : ℕ → Option ℚ × Option ℚ) :
    (∀ t h, (read_values sensor now raw).1 = some (t, h) →
      (run_once cfg setOk sensor mon now raw).2.1
        = (update_led_status setOk mon (determine_status cfg t h)).1 ∧
      (run_once cfg setOk sensor mon now raw).2.2.2
        = (update_led_status setOk mon (determine_status cfg t h)).2) ∧
    ((read_values sensor now raw).1 = none →
      (run_once cfg setOk sensor mon now raw).2.1
        = (update_led_status setOk mon "red").1 ∧
      (run_once cfg setOk sensor mon now raw).2.2.2
        = (update_led_status setOk mon "red").2) := by
  unfold run_once read_sensors
  rcases hr : read_values sensor now raw with ⟨res, s2, tr⟩
  constructor
  · intro t h hsome
    rcases res with _ | th
    · simp at hsome
    · have hth : th = (t, h) := by simpa using hsome
      subst hth
      exact ⟨rfl, rfl⟩
  · intro hnone
    rcases res with _ | th
    · exact ⟨rfl, rfl⟩
    · simp at hnone

/-- Witness for C7, both branches: a rate-limited cycle drives the LED
toward `red`, and a cycle with reading (30 °C, 50 %) drives it toward
`determine_status(30, 50)` (= green at the default thresholds). -/
theorem run_once_spec_witness :
    ((read_values { sReady with last_reading_time := 10 } 11 rawMissing).1 = none ∧
      (run_once defaultThresholds setOkAll { sReady with last_reading_time := 10 }
          monStart 11 rawMissing).2.1
        = (update_led_status setOkAll monStart "red").1) ∧
    ((read_values sReady 10 (rawFixed 30 50)).1 = some (30, 50) ∧
      (run_once defaultThresholds setOkAll sReady monStart 10 (rawFixed 30 50)).2.1
        = (update_led_status setOkAll monStart
            (determine_status defaultThresholds 30 50)).1) := by
  have hn := read_values_rate_skip { sReady with last_reading_time := 10 } 11
    rawMissing (by norm_num [sReady])
  have hs := read_values_success_eval sReady 10 (rawFixed 30 50) 0 30 50 rfl
    (by norm_num [sReady]) (by norm_num [sReady])
    (fun i hi => absurd hi (Nat.not_lt_zero i)) rfl
  constructor
  · have h := (run_once_spec defaultThresholds setOkAll
      { sReady with last_reading_time := 10 } monStart 11 rawMissing).2 (by rw [hn])
    exact ⟨by rw [hn], h.1⟩
  · have h := (run_once_spec defaultThresholds setOkAll sReady monStart 10
      (rawFixed 30 50)).1 30 50 (by rw [hs])
    exact ⟨by rw [hs], h.1⟩

/-! ## Claim C8 -/

/-- Counterexample to C8 as stated.  On `hwFailAt6` the first color-set
(red) succeeds — six successful `ChangeDutyCycle` calls leave the red
channel at 100 — and the second color-set (green) fails on its very first
hardware call, the one zeroing the red channel.  `self_test` then returns
`false` without raising, but since `hal_indicators.py` line 158–159
returns immediately without any `clear()`, the red channel is still at
100: the indicator does NOT end cleared. -/
theorem self_test_cex :
    (self_test hwFailAt6 ledReady).1 = false ∧
    (self_test hwFailAt6 ledReady).2.channels.red = 100 ∧
    (self_test hwFailAt6 ledReady).2.channels ≠ ⟨0, 0, 0⟩ := by
  refine ⟨rfl, rfl, ?_⟩
  decide

/-- Claim C8 (amended): if during the RGB LED self-test the second
color-set fails, `self_test()` returns `false` without raising any
exception and performs no further channel operations: the final state is
exactly the state the failed `set_color` left behind.  (`set_color` zeroes
all channels before applying the new color, so channels it reached are 0,
but no final `clear()` runs — a failure during the clearing phase, or
after some new duty cycle was already applied, can leave a channel lit.) -/
theorem self_test_second_fail (hw : ℕ → Bool) (st : RGBLed)
    (h0 : st.status = DeviceStatus.ready)
    (h1 : (set_color hw st LEDColor.red none).1 = true)
    (h2 : (set_color hw (set_color hw st LEDColor.red none).2
        LEDColor.green none).1 = false) :
    self_test hw st
      = (false, (set_color hw (set_color hw st LEDColor.red none).2
          LEDColor.green none).2) := by
  simp [self_test, h0, h1, h2]

/-- Witness for the amended C8 at the concrete failing hardware of the
counterexample. -/
theorem self_test_second_fail_witness :
    ledReady.status = DeviceStatus.ready ∧
    (set_color hwFailAt6 ledReady LEDColor.red none).1 = true ∧
    (set_color hwFailAt6 (set_color hwFailAt6 ledReady LEDColor.red none).2
        LEDColor.green none).1 = false ∧
    self_test hwFailAt6 ledReady
      = (false, (set_color hwFailAt6 (set_color hwFailAt6 ledReady LEDColor.red none).2
          LEDColor.green none).2) :=
  ⟨rfl, rfl, rfl,
    self_test_second_fail hwFailAt6 ledReady rfl rfl rfl⟩
